import Mathlib

/-!
Shallow embedding of `app/main.py` (LINE × OpenAI conversation bot).

The per-user conversation history lives in a Firestore document
`conversations/{user_id}` under the field `messages`.  We model:

  * a conversation turn (`{"role": ..., "content": ...}` dict) as `Turn`;
  * the stored `messages` field as `MsgVal` (a well-formed list, or some
    non-list value, matching the `isinstance(history, list)` check);
  * a Firestore document as `Doc` (the `messages` field, possibly absent,
    plus unrelated sibling fields preserved by `set(..., merge=True)`);
  * the whole store as a map from user id to an optional document;
  * the runtime environment as `Env`: whether each global client handle is
    set (`db`, `openai_client`, `line_bot_api`) and whether the backing
    store's read / write calls succeed during the event (an exception from
    the Firestore SDK is modelled by the corresponding flag being false);
  * the outcome of the single `chat.completions.create` call as
    `ApiOutcome` (success with the raw message content, or one of the
    exception classes caught in `get_openai_response`).

Python string builtins used by the code (`str.strip`, `str.lower`) are
modelled by `pyStrip` / `pyLower` below, and `history[-(n):]` by
`pyTakeLast`.
-/

inductive Role where
  | user
  | assistant
  | system
deriving DecidableEq, Repr

structure Turn where
  role : Role
  content : String
deriving DecidableEq, Repr

/-- The stored `messages` field: either a well-formed list of turns (after
boundary validation) or some non-list value (`isinstance(history, list)`
fails). -/
inductive MsgVal where
  | list (msgs : List Turn)
  | nonlist
deriving DecidableEq, Repr

/-- One Firestore document: the `messages` field (`none` = field absent,
`doc.to_dict().get('messages', [])` then defaults to `[]`) plus unrelated
sibling fields, which `set(..., merge=True)` must preserve. -/
structure Doc where
  messages : Option MsgVal
  siblings : List (String × String)
deriving DecidableEq, Repr

/-- The document store: `none` means the document does not exist
(`doc.exists` is false). -/
def Store := String → Option Doc

/-- Which global client handles are set and whether the backing store's
calls succeed during the current event. -/
structure Env where
  dbSet : Bool      -- `db` is not None
  fetchOk : Bool    -- `doc_ref.get()` returns instead of raising
  writeOk : Bool    -- `doc_ref.set(...)` returns instead of raising
  clientSet : Bool  -- `openai_client` is not None
  lineSet : Bool    -- `line_bot_api` is not None
deriving DecidableEq, Repr

/-- Outcome of the one `chat.completions.create` call: success carries the
raw `response.choices[0].message.content`; the other constructors are the
exception classes caught in `get_openai_response`. -/
inductive ApiOutcome where
  | success (content : String)
  | authError
  | rateLimitError
  | apiError (statusCode : Int)
  | unexpectedError
deriving DecidableEq, Repr

/-! ### Constants from `main.py` -/

def RESET_COMMAND : String := "リセット"

def DEFAULT_SYSTEM_PROMPT : String :=
  "あなたは親切なAIアシスタントです。ユーザーの質問に答えたり、会話を楽しんだりします。"

def MAX_HISTORY_PAIRS : Nat := 10

/-! ### Python string builtins

`pyIsSpace` models Python's `str.isspace` character class (the whitespace
set stripped by `str.strip()`): ASCII whitespace and separator controls,
NEL, NBSP, Ogham space mark, the U+2000 block spaces, line/paragraph
separators, narrow NBSP, medium mathematical space and the ideographic
space U+3000. -/

def pyIsSpace (c : Char) : Bool :=
  (9 ≤ c.toNat && c.toNat ≤ 13) || c.toNat == 32 ||
  (28 ≤ c.toNat && c.toNat ≤ 31) || c.toNat == 0x85 || c.toNat == 0xA0 ||
  c.toNat == 0x1680 || (0x2000 ≤ c.toNat && c.toNat ≤ 0x200A) ||
  c.toNat == 0x2028 || c.toNat == 0x2029 || c.toNat == 0x202F ||
  c.toNat == 0x205F || c.toNat == 0x3000

/-- Python `str.strip()`: drop leading and trailing whitespace. -/
def pyStrip (s : String) : String :=
  String.mk (((s.toList.dropWhile pyIsSpace).reverse.dropWhile pyIsSpace).reverse)

/-- Python `str.lower()`, restricted to the character ranges that occur in
this codebase's strings: ASCII `A`–`Z` and fullwidth `Ａ`–`Ｚ` map to their
lowercase forms (+0x20); katakana, hiragana, CJK and the remaining
characters used here are case-invariant under Python's `lower`. -/
def pyLowerChar (c : Char) : Char :=
  if 0x41 ≤ c.toNat && c.toNat ≤ 0x5A then Char.ofNat (c.toNat + 32)
  else if 0xFF21 ≤ c.toNat && c.toNat ≤ 0xFF3A then Char.ofNat (c.toNat + 32)
  else c

def pyLower (s : String) : String :=
  String.mk (s.toList.map pyLowerChar)

/-- Python `xs[-(n):]`: the last `n` elements (the whole list when it has
at most `n` elements). -/
def pyTakeLast (n : Nat) (xs : List α) : List α :=
  xs.drop (xs.length - n)

/-! ### Firestore operations -/

/-- Model of `doc_ref.set({'messages': msgs}, merge=True)`: update the `messages`
field of the user's document, keeping sibling fields; create the document
if it does not exist. -/
def Store.setMessages (st : Store) (user_id : String) (msgs : List Turn) : Store :=
  fun u =>
    if u = user_id then
      match st user_id with
      | some d => some { d with messages := some (MsgVal.list msgs) }
      | none => some { messages := some (MsgVal.list msgs), siblings := [] }
    else st u

/-- The `messages` field stored for a user, if any. -/
def storedMessages (st : Store) (user_id : String) : Option MsgVal :=
  (st user_id).bind (fun d => d.messages)

/-- Function `reset_conversation_history(user_id)`: no-op if `db` is unset;
otherwise `doc_ref.set({'messages': []}, merge=True)`, re-raising on
failure (`.error ()`). -/
def reset_conversation_history (env : Env) (st : Store) (user_id : String) :
    Except Unit Store :=
  if !env.dbSet then .ok st
  else if env.writeOk then .ok (st.setMessages user_id [])
  else .error ()

/-- Function `save_conversation_history(user_id, history)`: no-op if `db` is unset;
otherwise writes `history[-(MAX_HISTORY_PAIRS * 2):]` into the `messages`
field with `merge=True`, re-raising on failure. -/
def save_conversation_history (env : Env) (st : Store) (user_id : String)
    (history : List Turn) : Except Unit Store :=
  if !env.dbSet then .ok st
  else if env.writeOk then
    .ok (st.setMessages user_id (pyTakeLast (MAX_HISTORY_PAIRS * 2) history))
  else .error ()

/-- Result of `get_conversation_history`: the returned history, the store
after the call (the malformed-`messages` branch writes), and the number of
Firestore read / write calls attempted. -/
structure FetchResult where
  history : List Turn
  store : Store
  reads : Nat
  writes : Nat

/-- Function `get_conversation_history(user_id)`: returns `[]` if `db` is unset; otherwise
one `doc_ref.get()`.  A read failure is caught and yields `[]`.  A missing
document yields `[]`.  A present document's `messages` field (defaulting to
`[]` when absent) is returned truncated to its last
`MAX_HISTORY_PAIRS * 2` entries when it is a list; otherwise the function
calls `reset_conversation_history` (whose failure is caught by the
enclosing `except`) and returns `[]`.  Never raises. -/
def get_conversation_history (env : Env) (st : Store) (user_id : String) :
    FetchResult :=
  if !env.dbSet then ⟨[], st, 0, 0⟩
  else if !env.fetchOk then ⟨[], st, 1, 0⟩
  else
    match st user_id with
    | none => ⟨[], st, 1, 0⟩
    | some d =>
      match d.messages.getD (MsgVal.list []) with
      | MsgVal.list msgs => ⟨pyTakeLast (MAX_HISTORY_PAIRS * 2) msgs, st, 1, 0⟩
      | MsgVal.nonlist =>
        match reset_conversation_history env st user_id with
        | .ok st' => ⟨[], st', 1, 1⟩
        | .error _ => ⟨[], st, 1, 1⟩

/-! ### OpenAI call -/

/-- Result of `get_openai_response`: the outbound `messages` payload when a
request was made (`none` when `openai_client` is unset and no request
happens), and the returned reply string. -/
structure CompletionResult where
  request : Option (List Turn)
  reply : String
deriving DecidableEq, Repr

/-- Function `get_openai_response(history)`: a fixed connectivity message if
`openai_client` is unset; otherwise sends `[system prompt] + history` and
returns the stripped message content on success, or one of the fixed
fallback strings for each caught exception class.  Total: every branch
returns a string. -/
def get_openai_response (clientSet : Bool) (outcome : ApiOutcome)
    (history : List Turn) : CompletionResult :=
  if !clientSet then ⟨none, "申し訳ありません、AIとの接続に問題が発生しました。"⟩
  else
    let messages : List Turn := ⟨Role.system, DEFAULT_SYSTEM_PROMPT⟩ :: history
    match outcome with
    | .success content => ⟨some messages, pyStrip content⟩
    | .authError => ⟨some messages, "AIサービスの認証に失敗しました。設定を確認してください。"⟩
    | .rateLimitError =>
      ⟨some messages, "AIサービスの利用制限に達しました。しばらくしてからお試しください。"⟩
    | .apiError statusCode =>
      ⟨some messages, "AIサービスでエラーが発生しました (エラーコード: " ++ toString statusCode ++ ")。"⟩
    | .unexpectedError =>
      ⟨some messages, "申し訳ありません、AIの応答生成中に予期せぬエラーが発生しました。"⟩

/-! ### Message handler -/

/-- Observables of one `handle_message` invocation: the store afterwards,
the computed `reply_text`, the reply messages whose send was attempted
(empty when `line_bot_api` is unset; a send failure is caught and logged,
so the attempt still counts), and the number of store reads, store writes
and completion-API calls attempted. -/
structure TurnResult where
  store : Store
  replyText : String
  sentReplies : List String
  reads : Nat
  writes : Nat
  completionCalls : Nat

/-- The reset-command test on line 232:
`user_message_text.strip().lower() == RESET_COMMAND.lower()`. -/
def isResetMessage (text : String) : Bool :=
  pyLower (pyStrip text) == pyLower RESET_COMMAND

/-- Handler `handle_message`: on the reset path, `reset_conversation_history`
(whose failure propagates — it is not wrapped in a `try`) then a fixed
confirmation reply.  Otherwise fetch the history, append the user turn,
call the completion API; a truthy (non-empty) reply string is appended as
the assistant turn and persisted (`save_conversation_history` failure also
propagates), a falsy (empty) one yields a fixed apology and skips
persistence.  Finally the reply send is attempted iff `line_bot_api` is
set. -/
def handle_message (env : Env) (outcome : ApiOutcome) (st : Store)
    (user_id : String) (text : String) : Except Unit TurnResult :=
  if isResetMessage text then
    match reset_conversation_history env st user_id with
    | .error e => .error e
    | .ok st' =>
      let reply_text := "会話履歴をリセットしました。新しい会話を始めましょう！"
      .ok { store := st', replyText := reply_text,
            sentReplies := if env.lineSet then [reply_text] else [],
            reads := 0, writes := if env.dbSet then 1 else 0,
            completionCalls := 0 }
  else
    let fr := get_conversation_history env st user_id
    let history1 := fr.history ++ [⟨Role.user, text⟩]
    let ai_response := (get_openai_response env.clientSet outcome history1).reply
    let calls : Nat := if env.clientSet then 1 else 0
    if ai_response ≠ "" then
      let history2 := history1 ++ [⟨Role.assistant, ai_response⟩]
      match save_conversation_history env fr.store user_id history2 with
      | .error e => .error e
      | .ok st' =>
        .ok { store := st', replyText := ai_response,
              sentReplies := if env.lineSet then [ai_response] else [],
              reads := fr.reads,
              writes := fr.writes + (if env.dbSet then 1 else 0),
              completionCalls := calls }
    else
      let reply_text := "申し訳ありません、現在応答を生成できません。"
      .ok { store := fr.store, replyText := reply_text,
            sentReplies := if env.lineSet then [reply_text] else [],
            reads := fr.reads, writes := fr.writes,
            completionCalls := calls }

/-! ### Concrete instances used by witnesses and counterexamples -/

/-- All client handles set, store reads and writes succeeding. -/
def envAll : Env := ⟨true, true, true, true, true⟩

/-- An empty store: no document exists yet. -/
def stEmpty : Store := fun _ => none

/-- A store whose document for `"U"` has a malformed (non-list) `messages`
value and an unrelated sibling field. -/
def stBad : Store := fun u =>
  if u = "U" then some ⟨some MsgVal.nonlist, [("plan", "pro")]⟩ else none

/-- A store whose document for `"U"` has a well-formed one-turn history and
an unrelated sibling field. -/
def stSib : Store := fun u =>
  if u = "U" then
    some ⟨some (MsgVal.list [⟨Role.user, "hi"⟩]), [("plan", "pro")]⟩
  else none

/-- A store whose document for `"U"` holds a 21-entry history, one more
than the `2 * MAX_HISTORY_PAIRS` bound. -/
def stLong : Store := fun u =>
  if u = "U" then
    some ⟨some (MsgVal.list (List.replicate 21 ⟨Role.user, "x"⟩)), []⟩
  else none

/-! ### Helper lemmas -/

theorem pyTakeLast_length_le (n : Nat) (xs : List α) :
    (pyTakeLast n xs).length ≤ n := by
  simp [pyTakeLast]
  omega

theorem pyTakeLast_eq_self (n : Nat) (xs : List α) (h : xs.length ≤ n) :
    pyTakeLast n xs = xs := by
  unfold pyTakeLast
  rw [Nat.sub_eq_zero_of_le h, List.drop_zero]

theorem pyTakeLast_length_of_le (n : Nat) (xs : List α) (h : n ≤ xs.length) :
    (pyTakeLast n xs).length = n := by
  simp [pyTakeLast]
  omega

theorem pyTakeLast_is_suffix (n : Nat) (xs : List α) :
    xs.take (xs.length - n) ++ pyTakeLast n xs = xs :=
  List.take_append_drop _ _

theorem storedMessages_setMessages (st : Store) (uid : String) (msgs : List Turn) :
    storedMessages (st.setMessages uid msgs) uid = some (MsgVal.list msgs) := by
  unfold storedMessages Store.setMessages
  cases h : st uid <;> simp [h]

theorem setMessages_of_doc (st : Store) (uid : String) (msgs : List Turn)
    (d : Doc) (h : st uid = some d) :
    (st.setMessages uid msgs) uid =
      some { messages := some (MsgVal.list msgs), siblings := d.siblings } := by
  unfold Store.setMessages
  simp [h]

/-- Non-emptiness of the `APIError` fallback string, which embeds the
status code between two fixed non-empty pieces. -/
theorem apiError_reply_ne_empty (statusCode : Int) :
    "AIサービスでエラーが発生しました (エラーコード: " ++ toString statusCode ++ ")。" ≠ "" := by
  intro h
  have hlen := congrArg String.length h
  simp [String.length_append] at hlen
  exact absurd hlen.1.1 (by decide)

/-- C1: after `save_conversation_history(user_id, history)` completes with
the store client set and the write succeeding, the persisted `messages`
sequence has length at most `2 * MAX_HISTORY_PAIRS`, and when the input
history is longer, what is kept is exactly a suffix of the input of length
`2 * MAX_HISTORY_PAIRS` — the oldest (front) entries are dropped. -/
theorem save_bounds_history (env : Env) (st : Store) (user_id : String)
    (history : List Turn) (hd : env.dbSet = true) (hw : env.writeOk = true) :
    ∃ st' kept, save_conversation_history env st user_id history = .ok st' ∧
      storedMessages st' user_id = some (MsgVal.list kept) ∧
      kept.length ≤ MAX_HISTORY_PAIRS * 2 ∧
      (MAX_HISTORY_PAIRS * 2 < history.length →
        ∃ dropped, history = dropped ++ kept ∧
          kept.length = MAX_HISTORY_PAIRS * 2 ∧
          dropped.length = history.length - MAX_HISTORY_PAIRS * 2) := by
  refine ⟨st.setMessages user_id (pyTakeLast (MAX_HISTORY_PAIRS * 2) history),
    pyTakeLast (MAX_HISTORY_PAIRS * 2) history, ?_, ?_, ?_, ?_⟩
  · simp [save_conversation_history, hd, hw]
  · exact storedMessages_setMessages st user_id _
  · exact pyTakeLast_length_le _ _
  · intro hlong
    refine ⟨history.take (history.length - MAX_HISTORY_PAIRS * 2),
      (pyTakeLast_is_suffix _ _).symm, ?_, ?_⟩
    · exact pyTakeLast_length_of_le _ _ (Nat.le_of_lt hlong)
    · simp

/-- C1 witness: a 21-entry history through `save_conversation_history`
with the store up and the write succeeding. -/
theorem save_bounds_history_witness :
    ∃ st' kept,
      save_conversation_history envAll stEmpty "U"
        (List.replicate 21 ⟨Role.user, "x"⟩) = .ok st' ∧
      storedMessages st' "U" = some (MsgVal.list kept) ∧
      kept.length ≤ MAX_HISTORY_PAIRS * 2 ∧
      (MAX_HISTORY_PAIRS * 2 < (List.replicate 21 (⟨Role.user, "x"⟩ : Turn)).length →
        ∃ dropped, List.replicate 21 (⟨Role.user, "x"⟩ : Turn) = dropped ++ kept ∧
          kept.length = MAX_HISTORY_PAIRS * 2 ∧
          dropped.length =
            (List.replicate 21 (⟨Role.user, "x"⟩ : Turn)).length - MAX_HISTORY_PAIRS * 2) :=
  save_bounds_history envAll stEmpty "U" (List.replicate 21 ⟨Role.user, "x"⟩) rfl rfl

/-- C10: when the store client handle is unset (`db is None`),
`save_conversation_history` and `reset_conversation_history` return without
raising and leave the store untouched, and `get_conversation_history`
returns the empty sequence without touching the store (no read, no
write). -/
theorem db_unset_noop (env : Env) (st : Store) (user_id : String)
    (history : List Turn) (hd : env.dbSet = false) :
    save_conversation_history env st user_id history = .ok st ∧
    reset_conversation_history env st user_id = .ok st ∧
    get_conversation_history env st user_id = ⟨[], st, 0, 0⟩ := by
  refine ⟨?_, ?_, ?_⟩ <;>
    simp [save_conversation_history, reset_conversation_history,
      get_conversation_history, hd]

/-- C10 witness: the three operations with `db` unset on a concrete
store. -/
theorem db_unset_noop_witness :
    save_conversation_history ⟨false, true, true, true, true⟩ stSib "U"
      [⟨Role.user, "q"⟩] = .ok stSib ∧
    reset_conversation_history ⟨false, true, true, true, true⟩ stSib "U" = .ok stSib ∧
    get_conversation_history ⟨false, true, true, true, true⟩ stSib "U" =
      ⟨[], stSib, 0, 0⟩ :=
  db_unset_noop ⟨false, true, true, true, true⟩ stSib "U" [⟨Role.user, "q"⟩] rfl

/-- C7: when the client is set, the outbound request prepends exactly one
fixed system-instruction turn to the history, whatever the outcome; and
every failure branch (client not initialized, authentication failure, rate
limiting, upstream API error with any status code, unexpected failure)
returns a non-empty string. -/
theorem openai_request_and_fallbacks (history : List Turn)
    (outcome : ApiOutcome) (statusCode : Int) :
    (get_openai_response true outcome history).request =
      some (⟨Role.system, DEFAULT_SYSTEM_PROMPT⟩ :: history) ∧
    (get_openai_response false outcome history).reply ≠ "" ∧
    (get_openai_response true ApiOutcome.authError history).reply ≠ "" ∧
    (get_openai_response true ApiOutcome.rateLimitError history).reply ≠ "" ∧
    (get_openai_response true (ApiOutcome.apiError statusCode) history).reply ≠ "" ∧
    (get_openai_response true ApiOutcome.unexpectedError history).reply ≠ "" := by
  refine ⟨?_, ?_, ?_, ?_, ?_, ?_⟩
  · cases outcome <;> rfl
  · cases outcome <;> simp [get_openai_response]
  · simp [get_openai_response]
  · simp [get_openai_response]
  · exact apiError_reply_ne_empty statusCode
  · simp [get_openai_response]

/-- C9: `get_openai_response` is total in the embedding (it returns a
string on every branch); its reply is empty only when the client is set
and the completion call succeeded with content that strips to the empty
string — every exception branch returns a fixed non-empty fallback. -/
theorem openai_response_empty_only_on_blank (clientSet : Bool)
    (outcome : ApiOutcome) (history : List Turn)
    (h : (get_openai_response clientSet outcome history).reply = "") :
    clientSet = true ∧
    ∃ content, outcome = ApiOutcome.success content ∧ pyStrip content = "" := by
  cases clientSet with
  | false => exact absurd h (by simp [get_openai_response])
  | true =>
    cases outcome with
    | success content => exact ⟨rfl, content, rfl, h⟩
    | authError => exact absurd h (by simp [get_openai_response])
    | rateLimitError => exact absurd h (by simp [get_openai_response])
    | apiError statusCode => exact absurd h (apiError_reply_ne_empty statusCode)
    | unexpectedError => exact absurd h (by simp [get_openai_response])

/-- C9 witness: a succeeding completion whose content is all whitespace
strips to the empty reply. -/
theorem openai_response_empty_only_on_blank_witness :
    (get_openai_response true (ApiOutcome.success "  ") []).reply = "" ∧
    (true = true ∧ ∃ content, ApiOutcome.success "  " = ApiOutcome.success content ∧
      pyStrip content = "") :=
  ⟨by decide, openai_response_empty_only_on_blank true (ApiOutcome.success "  ") []
    (by decide)⟩

/-- With the store client set, `get_conversation_history` attempts exactly
one document read, in every branch. -/
theorem fetch_reads_one (env : Env) (st : Store) (user_id : String)
    (hd : env.dbSet = true) :
    (get_conversation_history env st user_id).reads = 1 := by
  unfold get_conversation_history reset_conversation_history
  cases hf : env.fetchOk <;> simp [hd, hf]
  cases hsu : st user_id with
  | none => simp
  | some d =>
    cases hm : d.messages.getD (MsgVal.list []) with
    | list msgs => simp [hm]
    | nonlist => cases hw : env.writeOk <;> simp [hm, hw]

/-- Function `get_conversation_history` attempts at most one store write. -/
theorem fetch_writes_le_one (env : Env) (st : Store) (user_id : String) :
    (get_conversation_history env st user_id).writes ≤ 1 := by
  unfold get_conversation_history reset_conversation_history
  cases hd : env.dbSet <;> cases hf : env.fetchOk <;> simp [hd, hf]
  cases hsu : st user_id with
  | none => simp
  | some d =>
    cases hm : d.messages.getD (MsgVal.list []) with
    | list msgs => simp [hm]
    | nonlist => cases hw : env.writeOk <;> simp [hm, hw]

/-- When the stored `messages` value is not malformed,
`get_conversation_history` leaves the store unchanged and attempts no
write. -/
theorem fetch_wellformed_no_write (env : Env) (st : Store) (user_id : String)
    (h : storedMessages st user_id ≠ some MsgVal.nonlist) :
    (get_conversation_history env st user_id).store = st ∧
    (get_conversation_history env st user_id).writes = 0 := by
  unfold get_conversation_history
  cases hd : env.dbSet <;> cases hf : env.fetchOk <;> simp [hd, hf]
  cases hsu : st user_id with
  | none => simp
  | some d =>
    cases hm : d.messages with
    | none => simp [hm, Option.getD]
    | some v =>
      cases v with
      | list msgs => simp [hm, Option.getD]
      | nonlist =>
        exact absurd (by simp [storedMessages, hsu, hm]) h

/-- C4: `get_conversation_history` never raises (it is a total function in
the embedding) and: on a well-formed stored list it returns that list
truncated to its last `2 * MAX_HISTORY_PAIRS` entries (a suffix: the whole
list when it has at most that many entries, and of exact length
`2 * MAX_HISTORY_PAIRS` otherwise) leaving the store unchanged; it returns the empty
sequence when the client is unset, when the read fails, when no document
exists; and on a malformed (non-list) stored value it returns the empty
sequence and, when the write succeeds, also resets the stored value to the
empty list. -/
theorem fetch_total_spec (env : Env) (st : Store) (user_id : String) :
    (∀ d msgs, env.dbSet = true → env.fetchOk = true → st user_id = some d →
        d.messages.getD (MsgVal.list []) = MsgVal.list msgs →
        ∃ dropped,
          msgs = dropped ++ (get_conversation_history env st user_id).history ∧
          (get_conversation_history env st user_id).history.length ≤
            MAX_HISTORY_PAIRS * 2 ∧
          (msgs.length ≤ MAX_HISTORY_PAIRS * 2 →
            (get_conversation_history env st user_id).history = msgs) ∧
          (MAX_HISTORY_PAIRS * 2 ≤ msgs.length →
            (get_conversation_history env st user_id).history.length =
              MAX_HISTORY_PAIRS * 2) ∧
          (get_conversation_history env st user_id).store = st) ∧
    (env.dbSet = false → (get_conversation_history env st user_id).history = []) ∧
    (env.fetchOk = false → (get_conversation_history env st user_id).history = []) ∧
    (st user_id = none → (get_conversation_history env st user_id).history = []) ∧
    (∀ d, env.dbSet = true → env.fetchOk = true → st user_id = some d →
        d.messages = some MsgVal.nonlist →
        (get_conversation_history env st user_id).history = [] ∧
        (env.writeOk = true →
          storedMessages (get_conversation_history env st user_id).store user_id =
            some (MsgVal.list []))) := by
  refine ⟨?_, ?_, ?_, ?_, ?_⟩
  · intro d msgs hd hf hsu hm
    have hres : get_conversation_history env st user_id =
        ⟨pyTakeLast (MAX_HISTORY_PAIRS * 2) msgs, st, 1, 0⟩ := by
      unfold get_conversation_history
      simp [hd, hf, hsu, hm]
    rw [hres]
    exact ⟨msgs.take (msgs.length - MAX_HISTORY_PAIRS * 2),
      (pyTakeLast_is_suffix _ _).symm, pyTakeLast_length_le _ _,
      fun hle => pyTakeLast_eq_self _ _ hle,
      fun hge => pyTakeLast_length_of_le _ _ hge, rfl⟩
  · intro hd
    simp [get_conversation_history, hd]
  · intro hf
    cases hd : env.dbSet <;> simp [get_conversation_history, hd, hf]
  · intro hsu
    cases hd : env.dbSet <;> cases hf : env.fetchOk <;>
      simp [get_conversation_history, hd, hf, hsu]
  · intro d hd hf hsu hm
    have hres : get_conversation_history env st user_id =
        if env.writeOk then ⟨[], st.setMessages user_id [], 1, 1⟩
        else ⟨[], st, 1, 1⟩ := by
      unfold get_conversation_history reset_conversation_history
      cases hw : env.writeOk <;> simp [hd, hf, hsu, hm, hw]
    refine ⟨?_, ?_⟩
    · rw [hres]
      cases hw : env.writeOk <;> simp [hw]
    · intro hw
      rw [hres]
      simp [hw, storedMessages_setMessages]

/-- C4 witness: a malformed stored `messages` value on a live store is
returned as the empty history and self-healed to the empty list; a
well-formed one-turn history is returned as-is; and from a 21-entry stored
history the fetch returns exactly a length-20 suffix. -/
theorem fetch_total_spec_witness :
    ((get_conversation_history envAll stBad "U").history = [] ∧
      storedMessages (get_conversation_history envAll stBad "U").store "U" =
        some (MsgVal.list [])) ∧
    (get_conversation_history envAll stSib "U").history = [⟨Role.user, "hi"⟩] ∧
    (∃ dropped, List.replicate 21 (⟨Role.user, "x"⟩ : Turn) =
        dropped ++ (get_conversation_history envAll stLong "U").history ∧
      (get_conversation_history envAll stLong "U").history.length =
        MAX_HISTORY_PAIRS * 2) := by
  have hbad := (fetch_total_spec envAll stBad "U").2.2.2.2
    ⟨some MsgVal.nonlist, [("plan", "pro")]⟩ rfl rfl (by decide) rfl
  have hgood := (fetch_total_spec envAll stSib "U").1
    ⟨some (MsgVal.list [⟨Role.user, "hi"⟩]), [("plan", "pro")]⟩
    [⟨Role.user, "hi"⟩] rfl rfl (by decide) rfl
  have hlong := (fetch_total_spec envAll stLong "U").1
    ⟨some (MsgVal.list (List.replicate 21 ⟨Role.user, "x"⟩)), []⟩
    (List.replicate 21 ⟨Role.user, "x"⟩) rfl rfl (by decide) rfl
  obtain ⟨dropped, hsuf, _, _, hlen, _⟩ := hlong
  exact ⟨⟨hbad.1, hbad.2 rfl⟩, by rw [hgood.choose_spec.2.2.1 (by decide)],
    dropped, hsuf, hlen (by decide)⟩

/-- C6: on the conversation path with a set client, a live store and a
succeeding completion whose content strips to a non-empty string, exactly
the user turn then the assistant turn are appended to the fetched history
before truncation, the result is persisted, and the stripped content is
the reply text. -/
theorem success_appends_two_turns (env : Env) (st : Store) (user_id text content : String)
    (hm : isResetMessage text = false) (hd : env.dbSet = true)
    (hw : env.writeOk = true) (hc : env.clientSet = true)
    (hne : pyStrip content ≠ "") :
    ∃ r, handle_message env (ApiOutcome.success content) st user_id text = .ok r ∧
      r.replyText = pyStrip content ∧
      storedMessages r.store user_id =
        some (MsgVal.list (pyTakeLast (MAX_HISTORY_PAIRS * 2)
          ((get_conversation_history env st user_id).history ++
            [⟨Role.user, text⟩, ⟨Role.assistant, pyStrip content⟩]))) ∧
      r.completionCalls = 1 := by
  refine ⟨⟨(get_conversation_history env st user_id).store.setMessages user_id
      (pyTakeLast (MAX_HISTORY_PAIRS * 2)
        (((get_conversation_history env st user_id).history ++ [⟨Role.user, text⟩]) ++
          [⟨Role.assistant, pyStrip content⟩])),
      pyStrip content,
      if env.lineSet then [pyStrip content] else [],
      (get_conversation_history env st user_id).reads,
      (get_conversation_history env st user_id).writes + 1,
      1⟩, ?_, rfl, ?_, rfl⟩
  · unfold handle_message
    simp [hm, hd, hw, hc, hne, get_openai_response, save_conversation_history]
  · rw [storedMessages_setMessages]
    simp

/-- C6 witness: empty history, user sends "Hello", completion returns
"Hi there": the persisted history is the user turn then the assistant turn
and the reply text is "Hi there". -/
theorem success_appends_two_turns_witness :
    ∃ r, handle_message envAll (ApiOutcome.success "Hi there") stEmpty "U" "Hello" =
        .ok r ∧
      r.replyText = "Hi there" ∧
      storedMessages r.store "U" =
        some (MsgVal.list [⟨Role.user, "Hello"⟩, ⟨Role.assistant, "Hi there"⟩]) ∧
      r.completionCalls = 1 := by
  obtain ⟨r, h1, h2, h3, h4⟩ :=
    success_appends_two_turns envAll stEmpty "U" "Hello" "Hi there"
      (by decide) rfl rfl rfl (by decide)
  refine ⟨r, h1, ?_, ?_, h4⟩
  · rw [h2]
    decide
  · rw [h3]
    decide

/-- C2 counterexample: a failing completion call (an `AuthenticationError`
from the API) does NOT leave the stored history unchanged — the fallback
string is non-empty, so the user turn and the fallback assistant turn are
persisted (one write) where the claim requires persist to be skipped. -/
theorem completion_failure_persists_cex :
    (handle_message envAll ApiOutcome.authError stEmpty "U" "Hello").toOption.map
      (fun r => (r.writes, storedMessages r.store "U", r.replyText)) =
      some (1,
        some (MsgVal.list
          [⟨Role.user, "Hello"⟩,
           ⟨Role.assistant, "AIサービスの認証に失敗しました。設定を確認してください。"⟩]),
        "AIサービスの認証に失敗しました。設定を確認してください。") ∧
    storedMessages stEmpty "U" = none := by
  exact ⟨by decide, rfl⟩

/-- C2 amended: persistence is skipped — and the store left exactly as the
fetch left it (unchanged whenever the stored value was not malformed) —
precisely when the completion call yields no usable string, which, the
fallback strings being non-empty, happens only when the call succeeded
with content stripping to the empty string; the reply is then the fixed
"cannot respond" string. -/
theorem empty_reply_skips_persist (env : Env) (st : Store) (user_id text content : String)
    (hm : isResetMessage text = false) (hc : env.clientSet = true)
    (he : pyStrip content = "") :
    ∃ r, handle_message env (ApiOutcome.success content) st user_id text = .ok r ∧
      r.store = (get_conversation_history env st user_id).store ∧
      r.writes = (get_conversation_history env st user_id).writes ∧
      r.replyText = "申し訳ありません、現在応答を生成できません。" ∧
      (storedMessages st user_id ≠ some MsgVal.nonlist →
        r.store = st ∧ r.writes = 0) := by
  refine ⟨⟨(get_conversation_history env st user_id).store,
      "申し訳ありません、現在応答を生成できません。",
      if env.lineSet then ["申し訳ありません、現在応答を生成できません。"] else [],
      (get_conversation_history env st user_id).reads,
      (get_conversation_history env st user_id).writes,
      1⟩, ?_, rfl, rfl, rfl, ?_⟩
  · unfold handle_message
    simp [hm, hc, get_openai_response, he]
  · intro hwf
    exact fetch_wellformed_no_write env st user_id hwf

/-- C2 amended witness: a succeeding completion whose content is all
whitespace on an empty store: no write happens and the store is
untouched. -/
theorem empty_reply_skips_persist_witness :
    ∃ r, handle_message envAll (ApiOutcome.success " ") stEmpty "U" "Hello" = .ok r ∧
      r.store = (get_conversation_history envAll stEmpty "U").store ∧
      r.writes = (get_conversation_history envAll stEmpty "U").writes ∧
      r.replyText = "申し訳ありません、現在応答を生成できません。" ∧
      (storedMessages stEmpty "U" ≠ some MsgVal.nonlist →
        r.store = stEmpty ∧ r.writes = 0) :=
  empty_reply_skips_persist envAll stEmpty "U" "Hello" " " (by decide) rfl (by decide)

/-- C5: on a reset-keyword match with a live store and a succeeding write,
the handler sets the stored history to the empty sequence — keeping the
document and its unrelated sibling fields (merge) — replies with the fixed
confirmation string, and makes no completion-API call. -/
theorem reset_path_spec (env : Env) (st : Store) (user_id text : String)
    (outcome : ApiOutcome) (hm : isResetMessage text = true)
    (hd : env.dbSet = true) (hw : env.writeOk = true) :
    ∃ r, handle_message env outcome st user_id text = .ok r ∧
      storedMessages r.store user_id = some (MsgVal.list []) ∧
      (∀ d, st user_id = some d →
        r.store user_id = some ⟨some (MsgVal.list []), d.siblings⟩) ∧
      r.replyText = "会話履歴をリセットしました。新しい会話を始めましょう！" ∧
      r.completionCalls = 0 ∧
      (env.lineSet = true →
        r.sentReplies = ["会話履歴をリセットしました。新しい会話を始めましょう！"]) := by
  refine ⟨⟨st.setMessages user_id [],
      "会話履歴をリセットしました。新しい会話を始めましょう！",
      if env.lineSet then ["会話履歴をリセットしました。新しい会話を始めましょう！"] else [],
      0, 1, 0⟩, ?_, ?_, ?_, rfl, rfl, ?_⟩
  · unfold handle_message reset_conversation_history
    simp [hm, hd, hw]
  · exact storedMessages_setMessages st user_id []
  · intro d hsu
    exact setMessages_of_doc st user_id [] d hsu
  · intro hl
    simp [hl]

/-- C5 witness: " リセット " (whitespace variant of the keyword) on a store
whose document carries a one-turn history and an unrelated sibling field:
the history is cleared, the sibling survives, the fixed confirmation is
the reply, and no completion call happens. -/
theorem reset_path_spec_witness :
    ∃ r, handle_message envAll (ApiOutcome.success "ignored") stSib "U" " リセット " =
        .ok r ∧
      storedMessages r.store "U" = some (MsgVal.list []) ∧
      r.store "U" = some ⟨some (MsgVal.list []), [("plan", "pro")]⟩ ∧
      r.replyText = "会話履歴をリセットしました。新しい会話を始めましょう！" ∧
      r.completionCalls = 0 ∧
      r.sentReplies = ["会話履歴をリセットしました。新しい会話を始めましょう！"] := by
  obtain ⟨r, h1, h2, h3, h4, h5, h6⟩ :=
    reset_path_spec envAll stSib "U" " リセット " (ApiOutcome.success "ignored")
      (by decide) rfl rfl
  exact ⟨r, h1, h2,
    h3 ⟨some (MsgVal.list [⟨Role.user, "hi"⟩]), [("plan", "pro")]⟩ (by decide),
    h4, h5, h6 rfl⟩

/-- C3 counterexample: " ＲＥＳＥＴ " (fullwidth Latin, surrounded by
spaces) does NOT take the reset path: after normalization it is "ｒｅｓｅｔ"
while the fixed keyword is "リセット", so the handler takes the conversation
path (one completion call, the model reply relayed). -/
theorem fullwidth_reset_not_matched_cex :
    (handle_message envAll (ApiOutcome.success "Hi") stEmpty "U" " ＲＥＳＥＴ ").toOption.map
        (fun r => (r.completionCalls, r.replyText)) = some (1, "Hi") ∧
    isResetMessage " ＲＥＳＥＴ " = false ∧
    pyLower (pyStrip " ＲＥＳＥＴ ") = "ｒｅｓｅｔ" ∧
    pyLower RESET_COMMAND = "リセット" := by
  exact ⟨by decide, by decide, by decide, by decide⟩

/-- C3 amended: the reset path is taken (no completion call) iff the
trimmed, case-normalized text equals the normalized fixed keyword
"リセット", whole-string; " リセット " matches, while "please reset" and
" ＲＥＳＥＴ " (which normalizes to "ｒｅｓｅｔ") do not. -/
theorem reset_path_iff_normalized_keyword (env : Env) (st : Store)
    (user_id text : String) (outcome : ApiOutcome)
    (hd : env.dbSet = true) (hw : env.writeOk = true) (hc : env.clientSet = true) :
    (∃ r, handle_message env outcome st user_id text = .ok r ∧
      (r.completionCalls = 0 ↔ pyLower (pyStrip text) = pyLower RESET_COMMAND)) ∧
    pyLower (pyStrip " リセット ") = pyLower RESET_COMMAND ∧
    pyLower (pyStrip "please reset") ≠ pyLower RESET_COMMAND ∧
    pyLower (pyStrip " ＲＥＳＥＴ ") ≠ pyLower RESET_COMMAND := by
  refine ⟨?_, by decide, by decide, by decide⟩
  cases hmr : isResetMessage text with
  | true =>
    obtain ⟨r, h1, _, _, _, h5, _⟩ := reset_path_spec env st user_id text outcome hmr hd hw
    refine ⟨r, h1, ?_⟩
    simp [isResetMessage] at hmr
    simp [h5, hmr]
  | false =>
    have hne : ¬ pyLower (pyStrip text) = pyLower RESET_COMMAND := by
      simpa [isResetMessage] using hmr
    by_cases hrep : (get_openai_response env.clientSet outcome
        ((get_conversation_history env st user_id).history ++ [⟨Role.user, text⟩])).reply = ""
    · refine ⟨⟨(get_conversation_history env st user_id).store,
        "申し訳ありません、現在応答を生成できません。",
        if env.lineSet then ["申し訳ありません、現在応答を生成できません。"] else [],
        (get_conversation_history env st user_id).reads,
        (get_conversation_history env st user_id).writes,
        if env.clientSet then 1 else 0⟩, ?_, ?_⟩
      · unfold handle_message
        simp [hmr, hrep]
      · simp [hc, hne]
    · refine ⟨⟨(get_conversation_history env st user_id).store.setMessages user_id
          (pyTakeLast (MAX_HISTORY_PAIRS * 2)
            (((get_conversation_history env st user_id).history ++ [⟨Role.user, text⟩]) ++
              [⟨Role.assistant,
                (get_openai_response env.clientSet outcome
                  ((get_conversation_history env st user_id).history ++
                    [⟨Role.user, text⟩])).reply⟩])),
          (get_openai_response env.clientSet outcome
            ((get_conversation_history env st user_id).history ++ [⟨Role.user, text⟩])).reply,
          if env.lineSet then
            [(get_openai_response env.clientSet outcome
              ((get_conversation_history env st user_id).history ++
                [⟨Role.user, text⟩])).reply]
          else [],
          (get_conversation_history env st user_id).reads,
          (get_conversation_history env st user_id).writes + 1,
          if env.clientSet then 1 else 0⟩, ?_, ?_⟩
      · unfold handle_message save_conversation_history
        simp [hmr, hrep, hd, hw]
      · simp [hc, hne]

/-- C3 amended witness: the reset-path-iff instance at a concrete
environment, store and non-keyword text. -/
theorem reset_path_iff_normalized_keyword_witness :
    (∃ r, handle_message envAll (ApiOutcome.success "Hi") stEmpty "U" "Hello" = .ok r ∧
      (r.completionCalls = 0 ↔ pyLower (pyStrip "Hello") = pyLower RESET_COMMAND)) ∧
    pyLower (pyStrip " リセット ") = pyLower RESET_COMMAND ∧
    pyLower (pyStrip "please reset") ≠ pyLower RESET_COMMAND ∧
    pyLower (pyStrip " ＲＥＳＥＴ ") ≠ pyLower RESET_COMMAND :=
  reset_path_iff_normalized_keyword envAll stEmpty "U" "Hello"
    (ApiOutcome.success "Hi") rfl rfl rfl

/-- C8 counterexample: a conversation-path event over a malformed stored
`messages` value performs TWO store writes — the self-healing reset inside
the fetch and the final persist — where the claim allows at most one. -/
theorem double_write_on_malformed_cex :
    (handle_message envAll (ApiOutcome.success "Hi") stBad "U" "Hello").toOption.map
      (fun r => (r.reads, r.writes)) = some (1, 2) := by
  decide

/-- C8 amended: a conversation-path event with a live store, successful
writes and the messaging client set sends exactly one reply, performs
exactly one store read, and performs at most two store writes — at most
one unless the stored `messages` value is malformed, where the
self-healing reset inside the fetch adds one more. -/
theorem conversation_path_effects (env : Env) (st : Store) (user_id text : String)
    (outcome : ApiOutcome) (hm : isResetMessage text = false)
    (hd : env.dbSet = true) (hw : env.writeOk = true) (hl : env.lineSet = true) :
    ∃ r, handle_message env outcome st user_id text = .ok r ∧
      r.sentReplies.length = 1 ∧ r.reads = 1 ∧ r.writes ≤ 2 ∧
      (storedMessages st user_id ≠ some MsgVal.nonlist → r.writes ≤ 1) := by
  by_cases hrep : (get_openai_response env.clientSet outcome
      ((get_conversation_history env st user_id).history ++ [⟨Role.user, text⟩])).reply = ""
  · refine ⟨⟨(get_conversation_history env st user_id).store,
      "申し訳ありません、現在応答を生成できません。",
      if env.lineSet then ["申し訳ありません、現在応答を生成できません。"] else [],
      (get_conversation_history env st user_id).reads,
      (get_conversation_history env st user_id).writes,
      if env.clientSet then 1 else 0⟩, ?_, ?_, ?_, ?_, ?_⟩
    · unfold handle_message
      simp [hm, hrep]
    · simp [hl]
    · exact fetch_reads_one env st user_id hd
    · exact Nat.le_trans (fetch_writes_le_one env st user_id) (by omega)
    · intro hwf
      simp [(fetch_wellformed_no_write env st user_id hwf).2]
  · refine ⟨⟨(get_conversation_history env st user_id).store.setMessages user_id
        (pyTakeLast (MAX_HISTORY_PAIRS * 2)
          (((get_conversation_history env st user_id).history ++ [⟨Role.user, text⟩]) ++
            [⟨Role.assistant,
              (get_openai_response env.clientSet outcome
                ((get_conversation_history env st user_id).history ++
                  [⟨Role.user, text⟩])).reply⟩])),
      (get_openai_response env.clientSet outcome
        ((get_conversation_history env st user_id).history ++ [⟨Role.user, text⟩])).reply,
      if env.lineSet then
        [(get_openai_response env.clientSet outcome
          ((get_conversation_history env st user_id).history ++
            [⟨Role.user, text⟩])).reply]
      else [],
      (get_conversation_history env st user_id).reads,
      (get_conversation_history env st user_id).writes + 1,
      if env.clientSet then 1 else 0⟩, ?_, ?_, ?_, ?_, ?_⟩
    · unfold handle_message save_conversation_history
      simp [hm, hrep, hd, hw]
    · simp [hl]
    · exact fetch_reads_one env st user_id hd
    · show (get_conversation_history env st user_id).writes + 1 ≤ 2
      have := fetch_writes_le_one env st user_id
      omega
    · intro hwf
      simp [(fetch_wellformed_no_write env st user_id hwf).2]

/-- C8 amended witness: the effect counts at a concrete conversation-path
event over a well-formed store. -/
theorem conversation_path_effects_witness :
    ∃ r, handle_message envAll (ApiOutcome.success "Hi") stSib "U" "Hello" = .ok r ∧
      r.sentReplies.length = 1 ∧ r.reads = 1 ∧ r.writes ≤ 2 ∧
      (storedMessages stSib "U" ≠ some MsgVal.nonlist → r.writes ≤ 1) :=
  conversation_path_effects envAll stSib "U" "Hello" (ApiOutcome.success "Hi")
    (by decide) rfl rfl rfl
